/-
Verification of the `memiter` sequence-cursor library (src/memiter/__init__.py)
against its natural-language specification.

Shallow embedding notes.  The Python class `memiter` wraps an iterable and
keeps seven pieces of state: `_page`, `_limit`, `_first_iteration`,
`_generator_copy`, `data`, `original_iterable`, `generator`.  We model a
cursor over a replayable, deepcopy-able source (a list or a range, as in all
of the library's own examples and tests).  For such sources a Python iterator
is determined by the list of elements it has yet to yield, `deepcopy` is a
value copy, and `itertools.islice(it, start, stop)` yields
`drop start` then `take (stop - start)` of those elements; so iterators are
embedded as Lean lists and `islice` as `drop`/`take`.  Exceptions
(`AssertionError` from the precondition asserts, `StopIteration`) are
embedded as `Option`: a method that asserts returns `none` on violation
(the asserts precede every field write, so the caller's state is unchanged),
and the pull primitive returns `none` for `StopIteration`.
-/
import Mathlib

set_option linter.unusedVariables false

universe u

/-- State of a `memiter` cursor over a replayable source, mirroring the
attributes set in `memiter.__init__` (src/memiter/__init__.py lines 54-71). -/
structure Memiter (T : Type u) where
  _page : Nat
  _limit : Option Nat
  _first_iteration : Bool
  _generator_copy : List T
  data : List T
  original_iterable : List T
  generator : List T
  deriving Repr, DecidableEq

/-- Constructor `memiter(iterable)`: page 1, no limit, first-iteration flag
set, `_generator_copy = iter(iterable)`, empty `data`, and `generator`
aliased to the fresh iterator (lines 54-71).  The alias is broken before the
first pull (line 80 reassigns `_generator_copy`), so value copies are
faithful here. -/
def memiter {T : Type u} (iterable : List T) : Memiter T :=
  { _page := 1
    _limit := none
    _first_iteration := true
    _generator_copy := iterable
    data := []
    original_iterable := iterable
    generator := iterable }

/-- The slice `islice(l, start, stop)` computed by `_add_pagination`
(lines 94-98): `start = (page-1)*limit`, `stop = start + limit` when a limit
is set, else the whole sequence. -/
def paginate {T : Type u} (page : Nat) (lim : Option Nat) (l : List T) : List T :=
  match lim with
  | some n => (l.drop ((page - 1) * n)).take n
  | none => l

/-- `memiter._add_pagination(iterable)` (lines 94-98): replace `generator`
with the windowed slice of `iterable`. -/
def Memiter.addPagination {T : Type u} (m : Memiter T) (l : List T) : Memiter T :=
  { m with generator := paginate m._page m._limit l }

/-- The `_first_iteration` block at the top of `__next__` (lines 79-82):
snapshot the generator into `_generator_copy` (the `deepcopy`), then wrap
`generator` in the pagination slice, then clear the flag. -/
def Memiter.beginPass {T : Type u} (m : Memiter T) : Memiter T :=
  if m._first_iteration then
    let m1 := { m with _generator_copy := m.generator }
    let m2 := m1.addPagination m1.generator
    { m2 with _first_iteration := false }
  else m

/-- `memiter.__next__` (lines 77-92).  Returns `some value` and the updated
state (value appended to `data`), or `none` for `StopIteration`, in which
case `generator` is restored from `_generator_copy` and the first-iteration
flag is set again. -/
def Memiter.next {T : Type u} (m : Memiter T) : Option T × Memiter T :=
  let m1 := m.beginPass
  match m1.generator with
  | value :: rest => (some value, { m1 with generator := rest, data := m1.data ++ [value] })
  | [] => (none, { m1 with generator := m1._generator_copy, _first_iteration := true })

/-- `memiter.reset` (lines 106-114): page 1, no limit, flag set,
`generator = iter(original_iterable)` then `_add_pagination(original_iterable)`
(with no limit this is the unwindowed source), and `data` cleared. -/
def Memiter.reset {T : Type u} (m : Memiter T) : Memiter T :=
  let m1 := { m with _page := 1, _limit := none, _first_iteration := true,
                     generator := m.original_iterable }
  let m2 := m1.addPagination m1.original_iterable
  { m2 with data := [] }

/-- `memiter.limit(n)` (lines 116-159): assert `n` is a positive integer
(both asserts precede every write, hence `none` models the raised
`AssertionError` with the cursor unchanged), then set `_limit := n` and clear
`data`.  Nothing else changes: in particular `generator` and
`_first_iteration` are left as they are. -/
def Memiter.limit {T : Type u} (m : Memiter T) (n : Int) : Option (Memiter T) :=
  if 0 < n then some { m with _limit := some n.toNat, data := [] } else none

/-- `memiter.page(n)` (lines 161-202): assert `n` is a positive integer, then
set `_page := n` and clear `data`. -/
def Memiter.page {T : Type u} (m : Memiter T) (n : Int) : Option (Memiter T) :=
  if 0 < n then some { m with _page := n.toNat, data := [] } else none

/-- `memiter.filter(func)` (lines 204-235): `generator = filter(func, generator)`.
`data` is not touched. -/
def Memiter.filter {T : Type u} (m : Memiter T) (func : T → Bool) : Memiter T :=
  { m with generator := m.generator.filter func }

/-- `memiter.map(func)` (lines 237-263): `generator = map(func, generator)`. -/
def Memiter.map {T : Type u} (m : Memiter T) (func : T → T) : Memiter T :=
  { m with generator := m.generator.map func }

/-- One pass of Python iteration (`for`/`list`): call `__next__` with the
given fuel, collecting yielded values until `StopIteration`; returns the
values and the final state.  Fuel `generator.length + 1` always reaches
`StopIteration` (proved in `Memiter.toListState_first` /
`Memiter.toListState_rest` below), so `toListState` is exactly `list(m)`
together with the state `m` is left in. -/
def Memiter.iterAux {T : Type u} : Nat → Memiter T → List T × Memiter T
  | 0, m => ([], m)
  | k + 1, m =>
    match m.next with
    | (none, m1) => ([], m1)
    | (some v, m1) =>
      let r := Memiter.iterAux k m1
      (v :: r.1, r.2)

/-- `list(m)` together with the state the cursor is left in afterwards. -/
def Memiter.toListState {T : Type u} (m : Memiter T) : List T × Memiter T :=
  Memiter.iterAux (m.generator.length + 1) m

/-- `list(m)`: the elements yielded by a full pass. -/
def Memiter.toList {T : Type u} (m : Memiter T) : List T :=
  m.toListState.1

/-- The `for _ in self: continue` drain inside `order_by` (lines 300-301):
a full pass discarding the yielded values. -/
def Memiter.drain {T : Type u} (m : Memiter T) : Memiter T :=
  m.toListState.2

/-- Python's `sorted(l, key=func)`: the stable sort by ascending key.
`List.insertionSort` with `key a ≤ key b` is stable, hence extensionally
equal to Python's stable sort for integer keys. -/
def sortByKey {T : Type u} (func : T → Int) (l : List T) : List T :=
  l.insertionSort (fun a b => func a ≤ func b)

/-- `memiter.order_by(func)` (lines 265-305): clear `data`, drain the cursor
(`for _ in self: continue`), then `generator = iter(sorted(data, key=func))`. -/
def Memiter.order_by {T : Type u} (m : Memiter T) (func : T → Int) : Memiter T :=
  let m1 := { m with data := [] }
  let m2 := m1.drain
  { m2 with generator := sortByKey func m2.data }

/-- The sequence the current pass will yield: the pagination slice is applied
at the first pull when `_first_iteration` is set, otherwise the in-flight
`generator` continues as is. -/
def Memiter.passOutput {T : Type u} (m : Memiter T) : List T :=
  if m._first_iteration then paginate m._page m._limit m.generator else m.generator

/-- Run `k` calls of `__next__`, keeping the final state. -/
def Memiter.pullN {T : Type u} : Nat → Memiter T → Memiter T
  | 0, m => m
  | k + 1, m => Memiter.pullN k (m.next).2

/-! ### Characterization of a full pass -/

theorem paginate_length {T : Type u} (page : Nat) (lim : Option Nat) (l : List T) :
    (paginate page lim l).length ≤ l.length := by
  cases lim with
  | none => exact Nat.le_refl _
  | some n =>
    simp only [paginate, List.length_take, List.length_drop]
    omega

theorem Memiter.beginPass_of_not_first {T : Type u} (m : Memiter T)
    (h : m._first_iteration = false) : m.beginPass = m := by
  simp [Memiter.beginPass, h]

theorem Memiter.beginPass_of_first {T : Type u} (m : Memiter T)
    (h : m._first_iteration = true) :
    m.beginPass = { m with _generator_copy := m.generator,
                           generator := paginate m._page m._limit m.generator,
                           _first_iteration := false } := by
  simp [Memiter.beginPass, h, Memiter.addPagination]

theorem Memiter.iterAux_of_not_first {T : Type u} (g : List T) :
    ∀ (m : Memiter T) (fuel : Nat), m._first_iteration = false → m.generator = g →
      g.length < fuel →
      Memiter.iterAux fuel m =
        (g, { m with generator := m._generator_copy, _first_iteration := true,
                     data := m.data ++ g }) := by
  induction g with
  | nil =>
    intro m fuel h hg hfuel
    match fuel, hfuel with
    | k + 1, _ =>
      simp [Memiter.iterAux, Memiter.next, Memiter.beginPass_of_not_first m h, hg]
  | cons v rest ih =>
    intro m fuel h hg hfuel
    match fuel, hfuel with
    | k + 1, hfuel =>
      have hk : rest.length < k := by
        simpa using Nat.lt_of_succ_lt_succ hfuel
      have hstep : m.next =
          (some v, { m with generator := rest, data := m.data ++ [v] }) := by
        simp [Memiter.next, Memiter.beginPass_of_not_first m h, hg]
      have := ih { m with generator := rest, data := m.data ++ [v] } k h rfl hk
      simp [Memiter.iterAux, hstep, this, List.append_assoc]

theorem Memiter.toListState_rest {T : Type u} (m : Memiter T)
    (h : m._first_iteration = false) :
    m.toListState =
      (m.generator, { m with generator := m._generator_copy, _first_iteration := true,
                             data := m.data ++ m.generator }) :=
  Memiter.iterAux_of_not_first m.generator m (m.generator.length + 1) h rfl
    (Nat.lt_succ_self _)

theorem Memiter.toListState_first {T : Type u} (m : Memiter T)
    (h : m._first_iteration = true) :
    m.toListState =
      (paginate m._page m._limit m.generator,
       { m with _generator_copy := m.generator,
                data := m.data ++ paginate m._page m._limit m.generator }) := by
  have hlen := paginate_length m._page m._limit m.generator
  unfold Memiter.toListState
  cases hout : paginate m._page m._limit m.generator with
  | nil =>
    have : m.next = (none, { m with _generator_copy := m.generator,
                                    generator := m.generator,
                                    _first_iteration := true }) := by
      simp [Memiter.next, Memiter.beginPass_of_first m h, hout]
    simp [Memiter.iterAux, this, hout, h]
  | cons v rest =>
    have hstep : m.next =
        (some v, { m with _generator_copy := m.generator, generator := rest,
                          _first_iteration := false, data := m.data ++ [v] }) := by
      simp [Memiter.next, Memiter.beginPass_of_first m h, hout]
    have hrest : rest.length < m.generator.length := by
      have : (paginate m._page m._limit m.generator).length ≤ m.generator.length := hlen
      rw [hout] at this
      simp at this
      omega
    have htail := Memiter.iterAux_of_not_first rest
      { m with _generator_copy := m.generator, generator := rest,
               _first_iteration := false, data := m.data ++ [v] }
      m.generator.length rfl rfl hrest
    simp [Memiter.iterAux, hstep, htail, List.append_assoc, h]

theorem Memiter.toList_first {T : Type u} (m : Memiter T)
    (h : m._first_iteration = true) :
    m.toList = paginate m._page m._limit m.generator := by
  rw [Memiter.toList, Memiter.toListState_first m h]

theorem Memiter.toList_rest {T : Type u} (m : Memiter T)
    (h : m._first_iteration = false) :
    m.toList = m.generator := by
  rw [Memiter.toList, Memiter.toListState_rest m h]

theorem Memiter.pullN_of_not_first {T : Type u} (k : Nat) :
    ∀ (m : Memiter T), m._first_iteration = false → k ≤ m.generator.length →
      Memiter.pullN k m =
        { m with generator := m.generator.drop k, data := m.data ++ m.generator.take k } := by
  induction k with
  | zero => intro m h hk; simp [Memiter.pullN]
  | succ k ih =>
    intro m h hk
    cases hg : m.generator with
    | nil => rw [hg] at hk; simp at hk
    | cons v rest =>
      have hstep : m.next = (some v, { m with generator := rest, data := m.data ++ [v] }) := by
        simp [Memiter.next, Memiter.beginPass_of_not_first m h, hg]
      have hk' : k ≤ rest.length := by rw [hg] at hk; simpa using hk
      have htail := ih { m with generator := rest, data := m.data ++ [v] } h hk'
      simp [Memiter.pullN, hstep, htail, hg, List.append_assoc]

theorem Memiter.limit_page_state {T : Type u} (src : List T) (w p : Nat)
    (hw : 0 < w) (hp : 0 < p) :
    ((memiter src).limit (w : Int)).bind (fun m1 => m1.page (p : Int)) =
      some { _page := p, _limit := some w, _first_iteration := true,
             _generator_copy := src, data := [], original_iterable := src,
             generator := src } := by
  have hw' : (0 : Int) < (w : Int) := by exact_mod_cast hw
  have hp' : (0 : Int) < (p : Int) := by exact_mod_cast hp
  simp [memiter, Memiter.limit, Memiter.page, hw', hp']

theorem Memiter.toList_mk {T : Type u} (p : Nat) (lim : Option Nat)
    (gc d orig g : List T) :
    (Memiter.mk p lim true gc d orig g).toList = paginate p lim g :=
  Memiter.toList_first _ rfl

theorem Memiter.order_by_first {T : Type u} (m : Memiter T) (key : T → Int)
    (h : m._first_iteration = true) :
    m.order_by key =
      { m with _generator_copy := m.generator,
               data := paginate m._page m._limit m.generator,
               generator := sortByKey key (paginate m._page m._limit m.generator) } := by
  simp only [Memiter.order_by, Memiter.drain]
  rw [Memiter.toListState_first { m with data := [] } h]
  simp

/-! ### Claims -/

/-- C1: for every source of length `L`, positive window `w` and page `p`,
fully iterating after `limit w` and `page p` yields exactly
`source[(p-1)*w : (p-1)*w + w]`, and the empty sequence when that slice lies
beyond `L`. -/
theorem C1_window_slice (src : List Nat) (w p : Nat) (hw : 0 < w) (hp : 0 < p) :
    (((memiter src).limit (w : Int)).bind (fun m1 => m1.page (p : Int))).map Memiter.toList
        = some ((src.drop ((p - 1) * w)).take w) ∧
    (src.length ≤ (p - 1) * w →
      (((memiter src).limit (w : Int)).bind (fun m1 => m1.page (p : Int))).map Memiter.toList
        = some []) := by
  have hmain :
      (((memiter src).limit (w : Int)).bind (fun m1 => m1.page (p : Int))).map Memiter.toList
        = some ((src.drop ((p - 1) * w)).take w) := by
    rw [Memiter.limit_page_state src w p hw hp]
    simp [Memiter.toList_mk, paginate]
  refine ⟨hmain, fun hL => ?_⟩
  rw [hmain, List.drop_eq_nil_of_le hL]
  simp

/-- C1 witness: source `[0,1,2,3,4]`, window 2, page 2 gives `[2,3]`. -/
theorem C1_window_slice_witness :
    ((((memiter [0, 1, 2, 3, 4]).limit ((2 : Nat) : Int)).bind
        (fun m1 => m1.page ((2 : Nat) : Int))).map Memiter.toList
      = some (([0, 1, 2, 3, 4].drop ((2 - 1) * 2)).take 2)) ∧
    (((memiter [0, 1, 2, 3, 4]).limit ((2 : Nat) : Int)).bind
        (fun m1 => m1.page ((2 : Nat) : Int))).map Memiter.toList = some [2, 3] := by
  exact ⟨(C1_window_slice [0, 1, 2, 3, 4] 2 2 (by decide) (by decide)).1, by decide⟩

/-- C2: calling `limit` or `page` with a non-positive argument fails the
precondition (modelled by `none`, since both asserts precede every field
write) and the cursor is unchanged, so the same full iteration before and
after the failed call yields identical sequences. -/
theorem C2_invalid_args (m : Memiter Nat) (n : Int) (h : n ≤ 0) :
    m.limit n = none ∧ m.page n = none ∧
    ((m.limit n).getD m).toList = m.toList ∧
    ((m.page n).getD m).toList = m.toList := by
  have h' : ¬ (0 : Int) < n := by omega
  simp [Memiter.limit, Memiter.page, h']

/-- C2 witness: `limit 0`, `page 0` and `limit (-1)` all fail on a concrete
cursor, which keeps iterating as before. -/
theorem C2_invalid_args_witness :
    ((memiter [1, 2, 3] : Memiter Nat).limit 0 = none ∧
     (memiter [1, 2, 3] : Memiter Nat).page 0 = none ∧
     (((memiter [1, 2, 3] : Memiter Nat).limit 0).getD (memiter [1, 2, 3])).toList
        = (memiter [1, 2, 3] : Memiter Nat).toList ∧
     (((memiter [1, 2, 3] : Memiter Nat).page 0).getD (memiter [1, 2, 3])).toList
        = (memiter [1, 2, 3] : Memiter Nat).toList) ∧
    (memiter [1, 2, 3] : Memiter Nat).limit (-1) = none :=
  ⟨C2_invalid_args (memiter [1, 2, 3]) 0 (by decide),
   (C2_invalid_args (memiter [1, 2, 3]) (-1) (by decide)).1⟩

/-- Mid-pass scenario for C3: start from `memiter [0,1,2,3]`, set window 2,
pull one element (the pass is now in flight), then call `limit 1`. -/
def c3_mid : Option (Memiter Nat) :=
  ((memiter [0, 1, 2, 3]).limit 2).map (fun m1 => ((m1.next).2)) |>.bind
    (fun m2 => m2.limit 1)

/-- C3 counterexample: after the mid-pass `limit 1`, the active producer is
the in-flight remainder `[1]`, not the rebuilt slice
`paginate 1 (some 1) [0,1,2,3] = [0]` the claim requires, and finishing the
iteration yields `[1]`, not `[0]`. -/
theorem C3_counterexample :
    c3_mid.map Memiter.generator = some [1] ∧
    c3_mid.map Memiter.toList = some [1] ∧
    paginate 1 (some 1) [0, 1, 2, 3] = [0] ∧
    c3_mid.map Memiter.generator ≠ some (paginate 1 (some 1) [0, 1, 2, 3]) ∧
    c3_mid.map Memiter.toList ≠ some (paginate 1 (some 1) [0, 1, 2, 3]) := by
  decide

/-- C3 amended: `limit n` (for positive `n`) sets the window size, clears
`data` immediately and returns the same cursor, but changes nothing else —
in particular it does not rebuild the active producer at call time (the new
slice is applied only at the first pull of the next pass, so a mid-pass call
leaves the in-flight pass untouched).  `page` behaves identically for the
page index. -/
theorem C3_amended_set_only (m : Memiter Nat) (n : Int) (h : 0 < n) :
    m.limit n = some { m with _limit := some n.toNat, data := [] } ∧
    m.page n = some { m with _page := n.toNat, data := [] } := by
  simp [Memiter.limit, Memiter.page, h]

/-- A concrete mid-pass state: `memiter [0,1,2,3]` after one pull. -/
def c3_pulled : Memiter Nat :=
  ((memiter [0, 1, 2, 3]).next).2

/-- C3 amended witness at a concrete mid-pass state. -/
theorem C3_amended_set_only_witness :
    c3_pulled.limit 1 = some { c3_pulled with _limit := some (1 : Int).toNat, data := [] } ∧
    c3_pulled.page 1 = some { c3_pulled with _page := (1 : Int).toNat, data := [] } :=
  C3_amended_set_only c3_pulled 1 (by decide)

/-- C4 counterexample: `data` is not cleared when a fresh pass begins — two
consecutive full drains of `memiter [7]` leave `data = [7, 7]`, not the
second pass alone `[7]`. -/
theorem C4_counterexample :
    ((memiter [7] : Memiter Nat).toListState.2.toListState.2).data = [7, 7] ∧
    ((memiter [7] : Memiter Nat).toListState.2.toListState.2).data ≠ [7] := by
  decide

/-- C4 amended: at every point in a pass, `data` equals its content at the
start of the pass followed by the prefix of the pass output consumed so far.
(The claim's clearing of `data` on windowing changes is real — `limit`,
`page`, `reset` clear it — but no clearing happens when a fresh pass begins,
so consecutive drains accumulate.) -/
theorem C4_amended_history (m : Memiter Nat) (k : Nat) (hk : k ≤ m.passOutput.length) :
    (Memiter.pullN k m).data = m.data ++ m.passOutput.take k := by
  cases hfi : m._first_iteration with
  | false =>
    have hpo : m.passOutput = m.generator := by simp [Memiter.passOutput, hfi]
    rw [hpo] at hk ⊢
    rw [Memiter.pullN_of_not_first k m hfi hk]
  | true =>
    have hpo : m.passOutput = paginate m._page m._limit m.generator := by
      simp [Memiter.passOutput, hfi]
    rw [hpo] at hk ⊢
    cases k with
    | zero => simp [Memiter.pullN]
    | succ k =>
      cases hout : paginate m._page m._limit m.generator with
      | nil => rw [hout] at hk; simp at hk
      | cons v rest =>
        have hstep : m.next =
            (some v, { m with _generator_copy := m.generator, generator := rest,
                              _first_iteration := false, data := m.data ++ [v] }) := by
          simp [Memiter.next, Memiter.beginPass_of_first m hfi, hout]
        rw [hout] at hk
        have hk' : k ≤ rest.length := by simpa using hk
        have htail := Memiter.pullN_of_not_first k
          { m with _generator_copy := m.generator, generator := rest,
                   _first_iteration := false, data := m.data ++ [v] } rfl hk'
        simp [Memiter.pullN, hstep, htail, List.append_assoc]

/-- C4 amended witness: pull 2 of the 3 windowed elements. -/
theorem C4_amended_history_witness :
    (Memiter.pullN 2 (memiter [4, 5, 6] : Memiter Nat)).data
        = (memiter [4, 5, 6] : Memiter Nat).data
            ++ (memiter [4, 5, 6] : Memiter Nat).passOutput.take 2 ∧
    (Memiter.pullN 2 (memiter [4, 5, 6] : Memiter Nat)).data = [4, 5] :=
  ⟨C4_amended_history (memiter [4, 5, 6]) 2 (by decide), by decide⟩

/-- C5 counterexample: filtering `0..10` by is-even and doubling yields
`[0,4,8,12,16,20]`, not the `[0,2,4,6,8,10,12,14,16,18]` the claim states
(the latter is the output of the doubling map alone over `range(10)`). -/
theorem C5_counterexample :
    (((memiter (List.range 11)).filter (fun x => x % 2 == 0)).map (fun x => x * 2)).toList
        = [0, 4, 8, 12, 16, 20] ∧
    (((memiter (List.range 11)).filter (fun x => x % 2 == 0)).map (fun x => x * 2)).toList
        ≠ [0, 2, 4, 6, 8, 10, 12, 14, 16, 18] := by
  decide

/-- C5 amended: the Filter-then-Map chain over `0..10` yields each even
element doubled, `[0,4,8,12,16,20]`. -/
theorem C5_amended_filter_map :
    (((memiter (List.range 11)).filter (fun x => x % 2 == 0)).map (fun x => x * 2)).toList
      = [0, 4, 8, 12, 16, 20] := by
  decide

/-- C6: evaluation at the claim's input.  `order_by` does drain the producer
and rebuilds it over the sorted drained elements, and iterating afterwards
yields `[5,4,3,1,1]`; but `data` is not replaced by that iteration — the
sorted pass is appended after the drained elements, so `data` ends as
`[3,1,4,1,5,5,4,3,1,1]`, contradicting the claim (and the `order_by`
docstring in the source, lines 281-285). -/
theorem C6_code_eval :
    ((memiter ([3, 1, 4, 1, 5] : List Int)).order_by (fun x => -x)).toList
        = [5, 4, 3, 1, 1] ∧
    ((memiter ([3, 1, 4, 1, 5] : List Int)).order_by (fun x => -x)).data
        = [3, 1, 4, 1, 5] ∧
    ((memiter ([3, 1, 4, 1, 5] : List Int)).order_by (fun x => -x)).toListState.2.data
        = [3, 1, 4, 1, 5, 5, 4, 3, 1, 1] ∧
    ((memiter ([3, 1, 4, 1, 5] : List Int)).order_by (fun x => -x)).toListState.2.data
        ≠ [5, 4, 3, 1, 1] := by
  decide

/-- C7: `reset` restores page 1 and no window, clears `data`, rebuilds the
producer from the original source with no window, and a subsequent full
iteration reproduces the original, unwindowed source — from any prior
cursor state whatsoever. -/
theorem C7_reset (m : Memiter Nat) :
    m.reset.toList = m.original_iterable ∧
    m.reset._page = 1 ∧ m.reset._limit = none ∧ m.reset.data = [] ∧
    m.reset.generator = m.original_iterable := by
  have h1 : m.reset = { m with _page := 1, _limit := none, _first_iteration := true,
                               generator := m.original_iterable, data := [] } := by
    simp [Memiter.reset, Memiter.addPagination, paginate]
  rw [h1]
  refine ⟨?_, rfl, rfl, rfl, rfl⟩
  rw [Memiter.toList_first _ rfl]
  simp [paginate]

/-- C8 counterexample: after driving `memiter [1]` to exhaustion, pulling
again with no intervening combinator call does produce an element (the
cursor replays its deep-copied snapshot), contradicting the claim that it
never does. -/
theorem C8_counterexample :
    (memiter [1] : Memiter Nat).toList = [1] ∧
    (((memiter [1] : Memiter Nat).toListState.2).next).1 = some 1 := by
  decide

/-- C8 amended: exhaustion is not terminal — on `StopIteration` the cursor
restores its snapshot and re-arms the first-iteration flag, so re-driving it
(with no combinator call in between) replays the same configured pass and
yields the same element sequence again. -/
theorem C8_amended_replay (m : Memiter Nat) (h : m._first_iteration = true) :
    (m.toListState.2).toList = m.toList := by
  have h1 := Memiter.toListState_first m h
  have h2 : (m.toListState.2)._first_iteration = true := by rw [h1]; exact h
  rw [Memiter.toList_first (m.toListState.2) h2, Memiter.toList_first m h, h1]

/-- C8 amended witness: a second drain of `memiter [1,2]` repeats `[1,2]`. -/
theorem C8_amended_replay_witness :
    ((memiter [1, 2] : Memiter Nat).toListState.2).toList
        = (memiter [1, 2] : Memiter Nat).toList ∧
    ((memiter [1, 2] : Memiter Nat).toListState.2).toList = [1, 2] :=
  ⟨C8_amended_replay (memiter [1, 2]) rfl, by decide⟩

/-- C10: after `order_by`, the next iteration applies the current
page/window slice again, on top of the sorted drained (already windowed)
elements: with window `w` and page `p` it yields
`sorted(window)[(p-1)*w : (p-1)*w + w]`, not necessarily the whole sorted
sequence. -/
theorem C10_order_by_repagination (src : List Int) (w p : Nat)
    (hw : 0 < w) (hp : 0 < p) (key : Int → Int) :
    (((memiter src).limit (w : Int)).bind (fun m1 => m1.page (p : Int))).map
        (fun m2 => (m2.order_by key).toList)
      = some (((sortByKey key (paginate p (some w) src)).drop ((p - 1) * w)).take w) := by
  rw [Memiter.limit_page_state src w p hw hp]
  simp only [Option.map_some']
  rw [Memiter.order_by_first (Memiter.mk p (some w) true src [] src src) key rfl]
  simp [Memiter.toList_mk, paginate]

/-- C10 witness: window 2, page 2 over `[3,1,4,1,5]` drains `[4,1]`, and the
post-`order_by` iteration re-slices page 2 of the 2-element sorted list,
yielding the empty sequence even though the drain was non-empty. -/
theorem C10_order_by_repagination_witness :
    (((memiter ([3, 1, 4, 1, 5] : List Int)).limit ((2 : Nat) : Int)).bind
        (fun m1 => m1.page ((2 : Nat) : Int))).map
        (fun m2 => (m2.order_by (fun x => -x)).toList)
      = some (((sortByKey (fun x => -x)
            (paginate 2 (some 2) [3, 1, 4, 1, 5])).drop ((2 - 1) * 2)).take 2) ∧
    (((memiter ([3, 1, 4, 1, 5] : List Int)).limit ((2 : Nat) : Int)).bind
        (fun m1 => m1.page ((2 : Nat) : Int))).map
        (fun m2 => (m2.order_by (fun x => -x)).toList) = some [] :=
  ⟨C10_order_by_repagination [3, 1, 4, 1, 5] 2 2 (by decide) (by decide) (fun x => -x),
   by decide⟩

/-! ### Wrapping one cursor inside another (claim C9)

When the iterable given to `memiter(...)` is itself a `memiter` cursor,
`iter(iterable)` returns the inner cursor object and every pull goes through
the inner cursor's `__next__`, mutating it.  The outer cursor's `generator`
slot then holds either the inner cursor or an `itertools.islice` over it, so
it is embedded as its own small producer type rather than a list. -/

/-- Producer held by an outer cursor wrapping an inner cursor: the inner
cursor itself (what `iter(inner)` returns), an `islice` over it (`skip`
elements still to be consumed before yielding, `remaining` yields left
before `stop`), or an islice whose source was cleared after it raised
(CPython islices stay exhausted for good). -/
inductive OGen (T : Type u) : Type u where
  | cursor (m : Memiter T)
  | sliced (skip : Nat) (remaining : Option Nat) (m : Memiter T)
  | stopped
  deriving Repr, DecidableEq

/-- One `next()` on `islice(inner, start, stop)` with step 1 (CPython
`islice_next`): first consume the skipped prefix from the source, then,
unless the yield budget is exhausted — checked before pulling — pull one
element; on source exhaustion or a spent budget the islice clears its
source pointer and is permanently exhausted. -/
def OGen.pullSliced {T : Type u} : Nat → Option Nat → Memiter T → Option T × OGen T
  | s + 1, r, m =>
    match m.next with
    | (some _, m1) => OGen.pullSliced s r m1
    | (none, _) => (none, OGen.stopped)
  | 0, some 0, _ => (none, OGen.stopped)
  | 0, r, m =>
    match m.next with
    | (some v, m1) => (some v, OGen.sliced 0 (r.map (fun n => n - 1)) m1)
    | (none, _) => (none, OGen.stopped)

/-- Pull one element from the outer cursor's producer.  Pulling from the
bare inner cursor is exactly the inner `__next__` (its `StopIteration`
propagates, and the inner cursor re-arms itself as usual). -/
def OGen.pull {T : Type u} : OGen T → Option T × OGen T
  | OGen.cursor m =>
    match m.next with
    | (v, m1) => (v, OGen.cursor m1)
  | OGen.sliced s r m => OGen.pullSliced s r m
  | OGen.stopped => (none, OGen.stopped)

/-- Outer `memiter` state for a cursor-valued source.  Construction
(`memiter(inner)`) stores the inner cursor in `original_iterable`,
`_generator_copy` and `generator` (in Python these alias one object; the
aliases are never read before the first pull overwrites `_generator_copy`
with a `deepcopy`, so value copies are faithful). -/
structure OMemiter (T : Type u) where
  _page : Nat
  _limit : Option Nat
  _first_iteration : Bool
  _generator_copy : OGen T
  data : List T
  original_iterable : Memiter T
  generator : OGen T
  deriving Repr, DecidableEq

/-- `memiter(inner)` for an inner cursor. -/
def omemiter {T : Type u} (inner : Memiter T) : OMemiter T :=
  { _page := 1, _limit := none, _first_iteration := true,
    _generator_copy := OGen.cursor inner, data := [],
    original_iterable := inner, generator := OGen.cursor inner }

/-- `_add_pagination` for the outer cursor: `islice(iterable, start, stop)`
calls `iter(iterable)` — the inner cursor itself — and yields at most
`stop - start = limit` elements after skipping `start = (page-1)*limit`.
In every modelled run the producer at the start of a pass is the stored
cursor, so only that case is reachable. -/
def OGen.addPagination {T : Type u} (page : Nat) (lim : Option Nat) : OGen T → OGen T
  | OGen.cursor m =>
    match lim with
    | some n => OGen.sliced ((page - 1) * n) (some n) m
    | none => OGen.sliced 0 none m
  | g => g

/-- `__next__` of the outer cursor: same lines 77-92 of the source as
`Memiter.next`, with pulls delegated to the producer. -/
def OMemiter.next {T : Type u} (m : OMemiter T) : Option T × OMemiter T :=
  let m1 :=
    if m._first_iteration then
      { m with _generator_copy := m.generator,
               generator := OGen.addPagination m._page m._limit m.generator,
               _first_iteration := false }
    else m
  match m1.generator.pull with
  | (some v, g1) => (some v, { m1 with generator := g1, data := m1.data ++ [v] })
  | (none, _) => (none, { m1 with generator := m1._generator_copy, _first_iteration := true })

/-- `limit` of the outer cursor (identical to `Memiter.limit`). -/
def OMemiter.limit {T : Type u} (m : OMemiter T) (n : Int) : Option (OMemiter T) :=
  if 0 < n then some { m with _limit := some n.toNat, data := [] } else none

/-- `page` of the outer cursor (identical to `Memiter.page`). -/
def OMemiter.page {T : Type u} (m : OMemiter T) (n : Int) : Option (OMemiter T) :=
  if 0 < n then some { m with _page := n.toNat, data := [] } else none

/-- Drive the outer cursor as `list(...)` does: `some values` exactly when
`StopIteration` is reached within the fuel — so a `some` result is the
genuine, terminating Python iteration — and `none` when the fuel ran out. -/
def OMemiter.iterFuel {T : Type u} : Nat → OMemiter T → Option (List T)
  | 0, _ => none
  | k + 1, m =>
    match m.next with
    | (none, _) => some []
    | (some v, m1) => (OMemiter.iterFuel k m1).map (fun vs => v :: vs)

/-- The inner cursor of the C9 example: `memiter(range(10)).limit(2).page(5)`. -/
def c9_inner : Option (Memiter Nat) :=
  ((memiter (List.range 10)).limit 2).bind (fun m => m.page 5)

/-- The outer cursor of the C9 example:
`memiter(inner).limit(1).page(2)`. -/
def c9_outer : Option (OMemiter Nat) :=
  ((c9_inner.map omemiter).bind (fun m => m.limit 1)).bind (fun m => m.page 2)

/-- C9: `memiter(memiter(range(10)).limit(2).page(5)).limit(1).page(2)`
fully iterates to exactly `[9]`; the inner cursor is configured to window 2
and page 5 and the outer cursor only pulls from it (its `next` delegates to
the inner `__next__`, never touching the inner configuration). -/
theorem C9_wrapping :
    c9_outer.map (OMemiter.iterFuel 20) = some (some [9]) ∧
    c9_inner.map (fun m => (m._limit, m._page)) = some (some 2, 5) := by
  decide
